import Mathlib

/-!
Verification of `hass-vantage`, a Home Assistant integration for Vantage
InFusion controllers. The integration is adaptation glue between the
`aiovantage` client library and the Home Assistant platform. We embed the
integration's pure logic shallowly:

* numeric values flowing through the adapters are modelled as rationals
  (`ℚ`), with Python's `int()` truncation and banker's `round()` made
  explicit;
* the Home Assistant device registry is modelled as a finite set of device
  identities, since `async_get_or_create` / `async_remove_device` key on the
  identifier set `{(DOMAIN, str(obj.id))}` and the registry keeps
  identifiers unique;
* callbacks that fire bus events are modelled as functions returning the
  list of events fired;
* exception control flow is modelled with an explicit error sum.
-/

/-- Python `round`: round half to even (banker's rounding), on rationals. -/
def pythonRound (q : ℚ) : ℤ :=
  if Int.fract q < 1/2 then Int.floor q
  else if 1/2 < Int.fract q then Int.floor q + 1
  else if Int.floor q % 2 = 0 then Int.floor q else Int.floor q + 1

/-- Python `int()` applied to a numeric value: truncation toward zero. -/
def pythonInt (q : ℚ) : ℤ :=
  if q < 0 then Int.ceil q else Int.floor q

/-! ## Device registry reconciliation: `device.py`

The Home Assistant device registry keys devices of this integration on the
identifier set `{(DOMAIN, str(obj.id))}` and keeps identifiers unique, so
we model the registry as a finite set of identities. Per the comment in
`async_setup_devices`, device ids always start with the object id,
followed by an optional suffix. -/

/-- A device-registry identity under the integration's `DOMAIN`: encoded as
`"<objId>"` when `suffix` is `none`, else `"<objId>:<suffix>"`. -/
structure DeviceId where
  objId : ℕ
  suffix : Option String
deriving DecidableEq

/-- The device identity `str(obj.id)` that `vantage_device_info` derives
for a remote object. -/
def deviceIdOf (objId : ℕ) : DeviceId := ⟨objId, none⟩

/-- The `register_items` loop of `async_setup_devices`: call
`dev_reg.async_get_or_create` for every current member of a controller;
`async_get_or_create` keys on the identifier set, so on the identity model
it inserts the derived identity (a no-op when already present). -/
def register_items (ids : List ℕ) (reg : Finset DeviceId) : Finset DeviceId :=
  ids.foldl (fun r i => insert (deviceIdOf i) r) reg

/-- The cleanup loop ending `async_setup_devices`: remove every device of
this config entry whose leading object id (`int(device_id.split(":")[0])`)
is not an object currently known to the client (`vantage_id not in vantage`). -/
def cleanup_devices (allIds : List ℕ) (reg : Finset DeviceId) : Finset DeviceId :=
  reg.filter (fun d => d.objId ∈ allIds)

/-- `device.py` `async_setup_devices` over a snapshot enumeration: register
masters, modules, port devices and stations, then clean up stale devices.
`allIds` is the list of all object ids known to the client, a superset of
the four enumerated device categories. -/
def async_setup_devices (masters modules port_devices stations allIds : List ℕ)
    (reg : Finset DeviceId) : Finset DeviceId :=
  cleanup_devices allIds
    (register_items stations
      (register_items port_devices
        (register_items modules
          (register_items masters reg))))

/-- `device.py` `remove_device`: look up the device with identifier
`{(DOMAIN, str(obj.id))}` and remove it when present (a no-op when absent). -/
def remove_device (reg : Finset DeviceId) (objId : ℕ) : Finset DeviceId :=
  reg.erase (deviceIdOf objId)

/-! ## Home Assistant brightness utilities

`homeassistant.util.color.value_to_brightness` / `brightness_to_value` and
the `homeassistant.util.percentage` helpers they delegate to, as used by
`light.py`.  These are host-platform utilities; they are embedded from their
Home Assistant implementation: `states_in_range r = r.2 - r.1 + 1`,
`ranged_value_to_percentage r v = int((v - (r.1 - 1)) * 100 // states_in_range r)`
(Python float floor-division, hence `Int.floor`), and
`percentage_to_ranged_value r p = states_in_range r * p / 100 + (r.1 - 1)`. -/

def states_in_range (r : ℚ × ℚ) : ℚ := r.2 - r.1 + 1

def ranged_value_to_percentage (r : ℚ × ℚ) (value : ℚ) : ℤ :=
  Int.floor ((value - (r.1 - 1)) * 100 / states_in_range r)

def percentage_to_ranged_value (r : ℚ × ℚ) (p : ℤ) : ℚ :=
  states_in_range r * (p : ℚ) / 100 + (r.1 - 1)

/-- `homeassistant.util.color.value_to_brightness`: scale a value in range
`r` to a 0..255 brightness via the percentage helpers. -/
def value_to_brightness (r : ℚ × ℚ) (value : ℚ) : ℤ :=
  pythonRound (percentage_to_ranged_value (1, 255) (ranged_value_to_percentage r value))

/-- `homeassistant.util.color.brightness_to_value`: scale a 0..255
brightness back to a value in range `r`. -/
def brightness_to_value (r : ℚ × ℚ) (brightness : ℚ) : ℚ :=
  percentage_to_ranged_value r (ranged_value_to_percentage (1, 255) brightness)

/-- `light.py`: `LEVEL_RANGE = (1, 100)`, the Vantage level range used for
converting between HA brightness and Vantage levels. -/
def LEVEL_RANGE : ℚ × ℚ := (1, 100)

/-! ## GMem (variable) entities: `number.py` and `switch.py` -/

/-- The runtime value held by an `aiovantage` `GMem` (Vantage variable)
object: an `int`, a `bool` (which in Python is a subclass of `int` and so
passes `isinstance(value, int)`), or a `str`. -/
inductive GMemValue where
  | intVal (i : ℤ)
  | boolVal (b : Bool)
  | strVal (s : String)
deriving DecidableEq

/-- Python `isinstance(value, int)` for a `GMemValue`; `bool` passes. -/
def GMemValue.isInstanceInt : GMemValue → Bool
  | .intVal _ => true
  | .boolVal _ => true
  | .strVal _ => false

/-- The integer a Python `int`-instance value stands for (`True = 1`,
`False = 0`); unused for non-`int` values. -/
def GMemValue.toInt : GMemValue → ℤ
  | .intVal i => i
  | .boolVal b => if b then 1 else 0
  | .strVal _ => 0

/-- `number.py` `VantageNumberVariable.native_value`: `None` unless the
wrapped object's value is an `int`; an `int` value is reported divided by
1000 for fixed-precision variables and unchanged otherwise. -/
def VantageNumberVariable.native_value (is_fixed : Bool) (value : GMemValue) :
    Option ℚ :=
  if value.isInstanceInt then
    if is_fixed then some ((value.toInt : ℚ) / 1000)
    else some (value.toInt : ℚ)
  else none

/-- Round a positive rational to the value of the nearest IEEE binary64
double (round half to even), assuming the result is finite and normal:
scale into the binade `[2^e, 2^(e+1))` found by `Int.log 2`, round to a
53-bit significand, and scale back. This models the value of a CPython
float literal and of a CPython float multiplication result. Nonpositive
inputs (unused by the claims) map to 0. -/
def fp64Round (q : ℚ) : ℚ :=
  if q ≤ 0 then 0
  else ((pythonRound (q * 2 ^ ((52 : ℤ) - Int.log 2 q)) : ℤ) : ℚ)
    * 2 ^ (Int.log 2 q - (52 : ℤ))

/-- `number.py` `VantageNumberVariable.async_set_native_value`: the integer
passed to `client.gmem.set_value` for a requested native value, under
Python float semantics — the requested value arrives as the double nearest
to it, `value * 1000` rounds to a double again, and `int()` truncates. For
non-fixed variables, `int(value)` truncates the double directly. -/
def VantageNumberVariable.async_set_native_value (is_fixed : Bool) (value : ℚ) : ℤ :=
  if is_fixed then pythonInt (fp64Round (fp64Round value * 1000))
  else pythonInt (fp64Round value)

/-- `switch.py` `VantageVariableSwitch.is_on`: `None` unless the wrapped
object's value is an `int`; an `int` value is reported as `bool(value)`. -/
def VantageVariableSwitch.is_on (value : GMemValue) : Option Bool :=
  if value.isInstanceInt then some (value.toInt != 0) else none

/-- `light.py` `scale_color_brightness`: with `brightness = None` the
RGB/RGBW color tuple is returned unchanged; otherwise each component `c`
becomes `int(round(c * brightness / 255))` (Python `round`). -/
def scale_color_brightness (color : List ℤ) (brightness : Option ℤ) : List ℤ :=
  match brightness with
  | none => color
  | some b => color.map (fun (c : ℤ) => pythonRound ((c : ℚ) * (b : ℚ) / 255))

/-! ## Event bridge: `__init__.py` `async_setup_events` -/

/-- An `aiovantage` `Button` object, as read by the event bridge. -/
structure Button where
  id : ℕ
  name : String
  parent_id : ℕ
  pressed : Bool
deriving DecidableEq

/-- The payload fired on the HA event bus for a button press/release:
`button_id`, `button_name`, the literal `"TODO"` position placeholder and,
when `vantage.stations.get(obj.parent_id)` resolves, the station's id and
name. -/
structure ButtonEventPayload where
  button_id : ℕ
  button_name : String
  button_position : String
  station : Option (ℕ × String)
deriving DecidableEq

/-- A bus event fired by the integration: `vantage_button_pressed` or
`vantage_button_released`, with its payload. -/
inductive BusEvent where
  | button_pressed (payload : ButtonEventPayload)
  | button_released (payload : ButtonEventPayload)
deriving DecidableEq

/-- `vantage.stations.get`: look up a station (id, name) by object id. -/
def stations_get (stations : List (ℕ × String)) (i : ℕ) : Option (ℕ × String) :=
  stations.find? (fun s => s.1 == i)

/-- `__init__.py` `button_update_callback`: the bus events fired for one
`OBJECT_UPDATED` notification on a button, given the client's stations and
the notification's `attrs_changed` list. Returns early with no event when
`"pressed"` is not among the changed attributes. -/
def button_update_callback (stations : List (ℕ × String)) (obj : Button)
    (attrs_changed : List String) : List BusEvent :=
  if "pressed" ∉ attrs_changed then []
  else
    let payload : ButtonEventPayload :=
      ⟨obj.id, obj.name, "TODO", stations_get stations obj.parent_id⟩
    if obj.pressed then [BusEvent.button_pressed payload]
    else [BusEvent.button_released payload]

/-! ## Entity initialization fallbacks: `light.py`, `number.py` -/

/-- Home Assistant light color modes used by `light.py`. -/
inductive ColorMode where
  | HS
  | RGB
  | RGBW
  | COLOR_TEMP
  | BRIGHTNESS
  | ONOFF
deriving DecidableEq

/-- The `aiovantage` RGB-load color-space tag. The four recognized variants
are matched explicitly in `VantageRGBLight.__post_init__`; `unknown` stands
for any other variant the client library may report. -/
inductive ColorType where
  | HSL
  | RGB
  | RGBW
  | CCT
  | unknown (tag : String)
deriving DecidableEq

/-- The entity attributes set by `VantageRGBLight.__post_init__`: the
supported color modes, the selected color mode, whether the transition
feature flag was added, the CCT color-temperature bounds when set, and
whether a warning was logged. -/
structure RGBLightAttrs where
  supported_color_modes : List ColorMode
  color_mode : ColorMode
  transition : Bool
  min_color_temp_kelvin : Option ℤ
  max_color_temp_kelvin : Option ℤ
  warned : Bool
deriving DecidableEq

/-- `light.py` `VantageRGBLight.__post_init__`: select entity capabilities
from the object's color type; any unrecognized color type falls back to a
dimmable non-color light plus a logged warning (the function is total — it
never raises). -/
def VantageRGBLight.post_init (color_type : ColorType) (min_temp max_temp : ℤ) :
    RGBLightAttrs :=
  match color_type with
  | .HSL => ⟨[.HS], .HS, true, none, none, false⟩
  | .RGB => ⟨[.RGB], .RGB, true, none, none, false⟩
  | .RGBW => ⟨[.RGBW], .RGBW, false, none, none, false⟩
  | .CCT => ⟨[.COLOR_TEMP], .COLOR_TEMP, true, some min_temp, some max_temp, false⟩
  | .unknown _ => ⟨[.BRIGHTNESS], .BRIGHTNESS, true, none, none, true⟩

/-- The presentation attributes set by `VantageNumberVariable.__post_init__`;
`none` leaves the Home Assistant `NumberEntity` default in place. Units and
device classes are the HA constant strings (`PERCENTAGE = "%"`,
`UnitOfTime.MILLISECONDS = "ms"`, `UnitOfTime.SECONDS = "s"`,
`UnitOfTemperature.CELSIUS = "°C"`, `NumberDeviceClass.TEMPERATURE =
"temperature"`). -/
structure NumberAttrs where
  native_min_value : Option ℚ
  native_max_value : Option ℚ
  native_unit_of_measurement : Option String
  native_step : Option ℚ
  device_class : Option String
  warned : Bool
deriving DecidableEq

/-- `number.py` `VantageNumberVariable.__post_init__`: set range/unit
metadata from the variable's tag type; an unknown tag type logs a warning
and leaves every attribute at its default (the function is total — it never
raises). -/
def VantageNumberVariable.post_init (tag_type : String) : NumberAttrs :=
  match tag_type with
  | "DeviceUnits" => ⟨some 0, some 604800, none, none, none, false⟩
  | "Level" => ⟨some 0, some 100, some "%", none, none, false⟩
  | "Load" | "Task" => ⟨some 1, some 10000, none, none, none, false⟩
  | "Number" => ⟨some (-(2 ^ 31)), some (2 ^ 31 - 1), none, none, none, false⟩
  | "Delay" => ⟨some 0, some (24 * 60 * 60 * 1000), some "ms", none, none, false⟩
  | "Seconds" => ⟨some 0, some (7 * 24 * 60 * 60), some "s", none, none, false⟩
  | "DegC" => ⟨some (-40), some 150, some "°C", none, some "temperature", false⟩
  | "Decimal" => ⟨some (-(2 ^ 31)), some (2 ^ 31), none, some (1 / 1000), none, false⟩
  | _ => ⟨none, none, none, none, none, true⟩

/-! ## Config entry setup error remapping: `__init__.py` `async_setup_entry` -/

/-- The `aiovantage` error kinds named by `async_setup_entry`'s except
clauses, plus `otherError` for any exception type not named there. -/
inductive VantageError where
  | loginRequiredError
  | loginFailedError
  | clientConnectionError
  | otherError (msg : String)
deriving DecidableEq

/-- The outcome of `async_setup_entry`: success, a raised
`ConfigEntryAuthFailed`, a raised `ConfigEntryNotReady`, or an exception
propagated unmodified. -/
inductive SetupOutcome where
  | ok
  | configEntryAuthFailed
  | configEntryNotReady
  | propagated (e : VantageError)
deriving DecidableEq

/-- `__init__.py` `async_setup_entry`: the try/except remapping around the
body of setup — `LoginRequiredError` and `LoginFailedError` raise
`ConfigEntryAuthFailed`, `ClientConnectionError` raises
`ConfigEntryNotReady`, everything else propagates. -/
def async_setup_entry (body : Except VantageError Unit) : SetupOutcome :=
  match body with
  | .ok _ => .ok
  | .error .loginRequiredError => .configEntryAuthFailed
  | .error .loginFailedError => .configEntryAuthFailed
  | .error .clientConnectionError => .configEntryNotReady
  | .error e => .propagated e

/-! ## Device info construction: `device.py` `vantage_device_info` -/

/-- The parts of the Vantage client consulted by `vantage_device_info`:
areas (id, name), the ids of `BackBox` objects (`client.back_boxes`), and
all object ids known to the client (`x in client`). -/
structure VantageClient where
  areas : List (ℕ × String)
  back_box_ids : List ℕ
  all_ids : List ℕ

/-- A `SystemObject` as read by `vantage_device_info`: id, display name,
dotted `vantage_type()` string, the `Master` / `StationObject` /
`LocationObject` class flags, `area` (0 is unset — Python falsy), the
serial number when present, the `parent.id` reference for objects matching
the `ChildObject` protocol, and the id of the object's master. -/
structure SystemObject where
  id : ℕ
  display_name : String
  vantage_type : String
  is_master : Bool
  is_station : Bool
  is_location : Bool
  area : ℕ
  serial_number : Option ℕ
  parent : Option ℕ
  master : ℕ
deriving DecidableEq

/-- The `DeviceInfo` dictionary built by `vantage_device_info`. -/
structure DeviceInfo where
  identifiers : String
  name : String
  manufacturer : String
  model : String
  suggested_area : Option String
  serial_number : Option String
  via_device : Option String
deriving DecidableEq

/-- `client.areas.get`: look up an area (id, name) by object id. -/
def areas_get (areas : List (ℕ × String)) (i : ℕ) : Option (ℕ × String) :=
  areas.find? (fun a => a.1 == i)

/-- Python `s.split(".", 1)`: the part before the first `"."` and, when a
dot occurs, the remainder. -/
def split_dot_once (s : String) : String × Option String :=
  match s.splitOn "." with
  | [] => (s, none)
  | [x] => (x, none)
  | x :: rest => (x, some (String.intercalate "." rest))

/-- The manufacturer/model suggestion of `vantage_device_info`: a dotted
type string splits into (manufacturer, model); otherwise the manufacturer
defaults to `"Vantage"` and the model is the full type string. -/
def device_manufacturer_model (vantage_type : String) : String × String :=
  match split_dot_once vantage_type with
  | (m, some rest) => (m, rest)
  | (m, none) => ("Vantage", m)

/-- The `suggested_area` of `vantage_device_info`: the area's name for a
`LocationObject` with a truthy `area` reference that resolves. -/
def device_suggested_area (client : VantageClient) (obj : SystemObject) :
    Option String :=
  if obj.is_location ∧ obj.area ≠ 0 then
    match areas_get client.areas obj.area with
    | some a => some a.2
    | none => none
  else none

/-- The `serial_number` of `vantage_device_info`: `str(obj.serial_number)`
for masters and stations with a truthy serial number. -/
def device_serial_number (obj : SystemObject) : Option String :=
  if obj.is_master ∨ obj.is_station then
    match obj.serial_number with
    | some n => if n ≠ 0 then some (toString n) else none
    | none => none
  else none

/-- The `via_device` of `vantage_device_info`: none for masters; the
explicit parent when the object is a `ChildObject` whose parent id is in
the client and not a BackBox; otherwise the object's master. -/
def device_via_device (client : VantageClient) (obj : SystemObject) :
    Option String :=
  if obj.is_master then none
  else
    match obj.parent with
    | some pid =>
      if pid ∈ client.all_ids ∧ pid ∉ client.back_box_ids then some (toString pid)
      else some (toString obj.master)
    | none => some (toString obj.master)

/-- `device.py` `vantage_device_info`: build the registry device info for a
Vantage object. -/
def vantage_device_info (client : VantageClient) (obj : SystemObject) : DeviceInfo :=
  ⟨toString obj.id, obj.display_name,
    (device_manufacturer_model obj.vantage_type).1,
    (device_manufacturer_model obj.vantage_type).2,
    device_suggested_area client obj,
    device_serial_number obj,
    device_via_device client obj⟩

/-- C2: a remote level of 100 converts to platform brightness (0..255) and
back to a remote level of exactly 100 — in particular within the claimed
rounding tolerance of ±1 — and the conversion uses the level range (1, 100). -/
theorem brightness_roundtrip_at_100 :
    brightness_to_value LEVEL_RANGE ((value_to_brightness LEVEL_RANGE 100 : ℤ) : ℚ) = 100
      ∧ |brightness_to_value LEVEL_RANGE ((value_to_brightness LEVEL_RANGE 100 : ℤ) : ℚ) - 100| ≤ 1
      ∧ LEVEL_RANGE = (1, 100) := by
  have h : brightness_to_value LEVEL_RANGE ((value_to_brightness LEVEL_RANGE 100 : ℤ) : ℚ) = 100 := by
    norm_num [brightness_to_value, value_to_brightness, pythonRound,
      percentage_to_ranged_value, ranged_value_to_percentage, states_in_range, LEVEL_RANGE]
  refine ⟨h, ?_, rfl⟩
  rw [h]
  norm_num

/-! ## Helper lemmas about the Python numeric primitives -/

theorem pythonInt_intCast (k : ℤ) : pythonInt (k : ℚ) = k := by
  unfold pythonInt
  split <;> simp

theorem pythonRound_intCast (k : ℤ) : pythonRound (k : ℚ) = k := by
  unfold pythonRound
  norm_num [Int.fract_intCast]

theorem pythonRound_nonneg {q : ℚ} (h : 0 ≤ q) : 0 ≤ pythonRound q := by
  have hf : 0 ≤ Int.floor q := Int.floor_nonneg.mpr h
  unfold pythonRound
  split
  · exact hf
  · split
    · omega
    · split <;> omega

theorem pythonRound_le {q : ℚ} {n : ℤ} (h : q ≤ (n : ℚ)) : pythonRound q ≤ n := by
  have hf : ((Int.floor q : ℤ) : ℚ) ≤ (n : ℚ) := le_trans (Int.floor_le q) h
  have hfl : Int.floor q ≤ n := by exact_mod_cast hf
  unfold pythonRound
  split
  · exact hfl
  · rename_i hr
    push_neg at hr
    have hfr : Int.fract q = q - (Int.floor q : ℚ) := rfl
    rw [hfr] at hr
    have hlt : ((Int.floor q : ℤ) : ℚ) < (n : ℚ) := by linarith
    have hltz : Int.floor q < n := by exact_mod_cast hlt
    split
    · omega
    · split <;> omega

theorem scale_color_brightness_at_255 (color : List ℤ) :
    scale_color_brightness color (some 255) = color := by
  induction color with
  | nil => rfl
  | cons c cs ih =>
    simp only [scale_color_brightness, List.map_cons] at ih ⊢
    have hc : (c : ℚ) * ((255 : ℤ) : ℚ) / 255 = (c : ℚ) := by
      push_cast
      field_simp
    rw [hc, pythonRound_intCast, ih]

theorem log2_eq_of_bounds {q : ℚ} {n : ℤ} (h1 : (2 : ℚ) ^ n ≤ q) (h2 : q < 2 ^ (n + 1)) :
    Int.log 2 q = n := by
  have h0 : 0 < q := lt_of_lt_of_le (by positivity) h1
  have h1' : ((2 : ℕ) : ℚ) ^ n ≤ q := by push_cast; exact h1
  have h2' : q < ((2 : ℕ) : ℚ) ^ (n + 1) := by push_cast; exact h2
  have hge : n ≤ Int.log 2 q := (Int.zpow_le_iff_le_log (by norm_num) h0).mp h1'
  have hlt : Int.log 2 q < n + 1 := (Int.lt_zpow_iff_log_lt (by norm_num) h0).mp h2'
  omega

theorem fp64Round_1013 : fp64Round (1013 / 1000) = 4562146422526312 / 2 ^ 52 := by
  have hlog : Int.log 2 ((1013 : ℚ) / 1000) = 0 :=
    log2_eq_of_bounds (by norm_num) (by norm_num)
  rw [fp64Round, if_neg (by norm_num), hlog]
  norm_num [pythonRound, Int.fract]

theorem fp64Round_1013_mul_1000 :
    fp64Round ((4562146422526312 / 2 ^ 52 : ℚ) * 1000) = 8910442231496703 / 2 ^ 43 := by
  have harg : ((4562146422526312 / 2 ^ 52 : ℚ) * 1000)
      = 71283537851973625 / 70368744177664 := by norm_num
  rw [harg]
  have hlog : Int.log 2 ((71283537851973625 : ℚ) / 70368744177664) = 9 :=
    log2_eq_of_bounds (by norm_num) (by norm_num)
  rw [fp64Round, if_neg (by norm_num), hlog]
  norm_num [pythonRound, Int.fract]

theorem fp64Round_12345 : fp64Round (12345 / 1000) = 6949617174986097 / 2 ^ 49 := by
  have hlog : Int.log 2 ((12345 : ℚ) / 1000) = 3 :=
    log2_eq_of_bounds (by norm_num) (by norm_num)
  rw [fp64Round, if_neg (by norm_num), hlog]
  norm_num [pythonRound, Int.fract]

theorem fp64Round_12345_mul_1000 :
    fp64Round ((6949617174986097 / 2 ^ 49 : ℚ) * 1000) = 12345 := by
  have harg : ((6949617174986097 / 2 ^ 49 : ℚ) * 1000)
      = 868702146873262125 / 70368744177664 := by norm_num
  rw [harg]
  have hlog : Int.log 2 ((868702146873262125 : ℚ) / 70368744177664) = 13 :=
    log2_eq_of_bounds (by norm_num) (by norm_num)
  rw [fp64Round, if_neg (by norm_num), hlog]
  norm_num [pythonRound, Int.fract]

/-- C3 counterexample: the three-decimal set-then-read round-trip fails in
the program. Under Python float arithmetic, setting the fixed-variable
value 1.013 evaluates `int(1.013 * 1000)` to 1012 (the double nearest
1.013 times 1000 rounds to 1012.9999999999999), so reading back yields
1.012, not 1.013. -/
theorem fixed_variable_roundtrip_counterexample :
    VantageNumberVariable.async_set_native_value true (1013 / 1000) = 1012
      ∧ VantageNumberVariable.native_value true
          (.intVal (VantageNumberVariable.async_set_native_value true (1013 / 1000)))
        = some (1012 / 1000)
      ∧ VantageNumberVariable.native_value true
          (.intVal (VantageNumberVariable.async_set_native_value true (1013 / 1000)))
        ≠ some (1013 / 1000) := by
  have hset : VantageNumberVariable.async_set_native_value true (1013 / 1000) = 1012 := by
    rw [VantageNumberVariable.async_set_native_value, if_pos rfl,
      fp64Round_1013, fp64Round_1013_mul_1000]
    norm_num [pythonInt]
  refine ⟨hset, ?_, ?_⟩
  · rw [hset]
    norm_num [VantageNumberVariable.native_value, GMemValue.isInstanceInt, GMemValue.toInt]
  · rw [hset]
    norm_num [VantageNumberVariable.native_value, GMemValue.isInstanceInt, GMemValue.toInt]

/-- C3 amended: for a fixed-precision variable, setting the native value
12.345 stores the integer 12345 — the multiply-by-1000-and-truncate
survives float rounding at this input — and reading a stored integer
divides it by 1000, so reading back after storing 12345 yields 12.345. The
round-trip holds at 12.345 but not for every value with three decimal
places (see the counterexample at 1.013). -/
theorem fixed_variable_roundtrip_amended :
    VantageNumberVariable.async_set_native_value true (12345 / 1000) = 12345
      ∧ VantageNumberVariable.native_value true (.intVal 12345) = some (12345 / 1000)
      ∧ (∀ k : ℤ, VantageNumberVariable.native_value true (.intVal k)
          = some ((k : ℚ) / 1000)) := by
  refine ⟨?_, ?_, fun k => rfl⟩
  · rw [VantageNumberVariable.async_set_native_value, if_pos rfl,
      fp64Round_12345, fp64Round_12345_mul_1000]
    norm_num [pythonInt]
  · norm_num [VantageNumberVariable.native_value, GMemValue.isInstanceInt, GMemValue.toInt]

/-- C9: the variable-backed state projections return `None` on a non-`int`
value instead of raising or coercing; on an `int` value the switch's
`is_on` is its truthiness and the number's `native_value` is the integer,
divided by 1000 for fixed-precision variables. -/
theorem variable_state_projection :
    (∀ s is_fixed, VantageVariableSwitch.is_on (.strVal s) = none
      ∧ VantageNumberVariable.native_value is_fixed (.strVal s) = none)
    ∧ (∀ i : ℤ, VantageVariableSwitch.is_on (.intVal i) = some (i != 0))
    ∧ (∀ i : ℤ, VantageNumberVariable.native_value true (.intVal i) = some ((i : ℚ) / 1000))
    ∧ (∀ i : ℤ, VantageNumberVariable.native_value false (.intVal i) = some (i : ℚ)) := by
  refine ⟨fun s fx => ⟨rfl, rfl⟩, fun i => rfl, fun i => rfl, fun i => rfl⟩

/-- C10: `scale_color_brightness` returns the color unchanged when
brightness is `None`, otherwise maps each component keeping the arity; for
components and brightness in 0..255 every result component stays in
0..255, and brightness 255 is the identity. -/
theorem scale_color_brightness_spec (color : List ℤ) (b : ℤ)
    (hc : ∀ c ∈ color, 0 ≤ c ∧ c ≤ 255) (hb : 0 ≤ b ∧ b ≤ 255) :
    scale_color_brightness color none = color
      ∧ (scale_color_brightness color (some b)).length = color.length
      ∧ (∀ r ∈ scale_color_brightness color (some b), 0 ≤ r ∧ r ≤ 255)
      ∧ scale_color_brightness color (some 255) = color := by
  obtain ⟨hb0, hb255⟩ := hb
  refine ⟨rfl, by simp [scale_color_brightness], ?_, scale_color_brightness_at_255 color⟩
  intro r hr
  simp only [scale_color_brightness, List.mem_map] at hr
  obtain ⟨c, hcmem, rfl⟩ := hr
  obtain ⟨hc0, hc255⟩ := hc c hcmem
  have hc0' : (0 : ℚ) ≤ (c : ℚ) := by exact_mod_cast hc0
  have hb0' : (0 : ℚ) ≤ (b : ℚ) := by exact_mod_cast hb0
  have hc255' : (c : ℚ) ≤ 255 := by exact_mod_cast hc255
  have hb255' : (b : ℚ) ≤ 255 := by exact_mod_cast hb255
  constructor
  · exact pythonRound_nonneg (by positivity)
  · apply pythonRound_le
    push_cast
    rw [div_le_iff₀ (by norm_num : (0 : ℚ) < 255)]
    nlinarith [mul_le_mul hc255' hb255' hb0' (by norm_num : (0 : ℚ) ≤ 255)]

/-- Witness for C10 at a concrete color and brightness. -/
theorem scale_color_brightness_spec_witness :
    scale_color_brightness [255, 128, 0] none = [255, 128, 0]
      ∧ (scale_color_brightness [255, 128, 0] (some 100)).length = ([255, 128, 0] : List ℤ).length
      ∧ (∀ r ∈ scale_color_brightness [255, 128, 0] (some 100), 0 ≤ r ∧ r ≤ 255)
      ∧ scale_color_brightness [255, 128, 0] (some 255) = [255, 128, 0] :=
  scale_color_brightness_spec [255, 128, 0] 100 (by decide) (by decide)

/-! ## Device registry reconciliation lemmas -/

theorem register_items_cons (i : ℕ) (is : List ℕ) (reg : Finset DeviceId) :
    register_items (i :: is) reg = register_items is (insert (deviceIdOf i) reg) := rfl

theorem mem_register_items {ids : List ℕ} {reg : Finset DeviceId} {d : DeviceId} :
    d ∈ register_items ids reg ↔ d ∈ reg ∨ ∃ i ∈ ids, d = deviceIdOf i := by
  induction ids generalizing reg with
  | nil => simp [register_items]
  | cons i is ih =>
    rw [register_items_cons, ih]
    simp only [Finset.mem_insert, List.mem_cons]
    constructor
    · rintro (⟨rfl | hd⟩ | ⟨j, hj, rfl⟩)
      · exact Or.inr ⟨i, Or.inl rfl, rfl⟩
      · exact Or.inl hd
      · exact Or.inr ⟨j, Or.inr hj, rfl⟩
    · rintro (hd | ⟨j, (rfl | hj), rfl⟩)
      · exact Or.inl (Or.inr hd)
      · exact Or.inl (Or.inl rfl)
      · exact Or.inr ⟨j, hj, rfl⟩

theorem register_items_eq_self {ids : List ℕ} {reg : Finset DeviceId}
    (h : ∀ i ∈ ids, deviceIdOf i ∈ reg) : register_items ids reg = reg := by
  induction ids generalizing reg with
  | nil => rfl
  | cons i is ih =>
    rw [register_items_cons, Finset.insert_eq_self.mpr (h i (by simp))]
    exact ih (fun j hj => h j (by simp [hj]))

theorem register_items_append (a b : List ℕ) (reg : Finset DeviceId) :
    register_items (a ++ b) reg = register_items b (register_items a reg) := by
  simp [register_items, List.foldl_append]

theorem async_setup_devices_eq (masters modules port_devices stations allIds : List ℕ)
    (reg : Finset DeviceId) :
    async_setup_devices masters modules port_devices stations allIds reg
      = cleanup_devices allIds
          (register_items (masters ++ modules ++ port_devices ++ stations) reg) := by
  simp [async_setup_devices, register_items_append]

theorem mem_async_setup_devices {masters modules port_devices stations allIds : List ℕ}
    {reg : Finset DeviceId} {d : DeviceId} :
    d ∈ async_setup_devices masters modules port_devices stations allIds reg
      ↔ (d ∈ reg ∨ ∃ i ∈ masters ++ modules ++ port_devices ++ stations, d = deviceIdOf i)
        ∧ d.objId ∈ allIds := by
  rw [async_setup_devices_eq]
  simp [cleanup_devices, Finset.mem_filter, mem_register_items]

theorem cleanup_devices_idem (allIds : List ℕ) (reg : Finset DeviceId) :
    cleanup_devices allIds (cleanup_devices allIds reg) = cleanup_devices allIds reg := by
  ext d
  simp only [cleanup_devices, Finset.mem_filter]
  tauto

/-- C1: after `async_setup_devices` over a snapshot enumeration, every
enumerated remote object (master, module, port device, station) has exactly
one device record with its derived identity; every record whose encoded
object id is not among the current remote ids has been removed; and
re-running setup on the same snapshot produces the same record set. -/
theorem async_setup_devices_reconciliation
    (masters modules port_devices stations allIds : List ℕ) (reg : Finset DeviceId)
    (h : ∀ i ∈ masters ++ modules ++ port_devices ++ stations, i ∈ allIds) :
    (∀ i ∈ masters ++ modules ++ port_devices ++ stations,
        ((async_setup_devices masters modules port_devices stations allIds reg).filter
          (fun d => d = deviceIdOf i)).card = 1)
      ∧ (∀ d ∈ async_setup_devices masters modules port_devices stations allIds reg,
          d.objId ∈ allIds)
      ∧ async_setup_devices masters modules port_devices stations allIds
          (async_setup_devices masters modules port_devices stations allIds reg)
        = async_setup_devices masters modules port_devices stations allIds reg := by
  refine ⟨?_, ?_, ?_⟩
  · intro i hi
    have hmem : deviceIdOf i
        ∈ async_setup_devices masters modules port_devices stations allIds reg :=
      mem_async_setup_devices.mpr ⟨Or.inr ⟨i, hi, rfl⟩, h i hi⟩
    rw [Finset.filter_eq', if_pos hmem]
    exact Finset.card_singleton _
  · intro d hd
    exact (mem_async_setup_devices.mp hd).2
  · have hall : ∀ i ∈ masters ++ modules ++ port_devices ++ stations,
        deviceIdOf i ∈ async_setup_devices masters modules port_devices stations allIds reg :=
      fun i hi => mem_async_setup_devices.mpr ⟨Or.inr ⟨i, hi, rfl⟩, h i hi⟩
    rw [async_setup_devices_eq masters modules port_devices stations allIds
        (async_setup_devices masters modules port_devices stations allIds reg),
      register_items_eq_self hall]
    rw [async_setup_devices_eq]
    exact cleanup_devices_idem _ _

/-- Witness for C1 at a concrete snapshot and registry. -/
theorem async_setup_devices_reconciliation_witness :
    (∀ i ∈ ([1] ++ [2] ++ [3] ++ [4] : List ℕ),
        ((async_setup_devices [1] [2] [3] [4] [1, 2, 3, 4] ∅).filter
          (fun d => d = deviceIdOf i)).card = 1)
      ∧ (∀ d ∈ async_setup_devices [1] [2] [3] [4] [1, 2, 3, 4] ∅,
          d.objId ∈ [1, 2, 3, 4])
      ∧ async_setup_devices [1] [2] [3] [4] [1, 2, 3, 4]
          (async_setup_devices [1] [2] [3] [4] [1, 2, 3, 4] ∅)
        = async_setup_devices [1] [2] [3] [4] [1, 2, 3, 4] ∅ :=
  async_setup_devices_reconciliation [1] [2] [3] [4] [1, 2, 3, 4] ∅ (by decide)

/-- C8: removing a remote object's device record happens exactly once:
after `remove_device` the derived record is gone, a second `remove_device`
for the same id finds no record and removes nothing, removal on a registry
without the record changes nothing, and the absence-from-enumeration
cleanup likewise leaves no record for an id absent from the remote set. -/
theorem remove_device_exactly_once (reg : Finset DeviceId) (objId : ℕ)
    (allIds : List ℕ) (h : objId ∉ allIds) :
    deviceIdOf objId ∉ remove_device reg objId
      ∧ remove_device (remove_device reg objId) objId = remove_device reg objId
      ∧ (deviceIdOf objId ∉ reg → remove_device reg objId = reg)
      ∧ deviceIdOf objId ∉ cleanup_devices allIds reg := by
  refine ⟨Finset.not_mem_erase _ _, Finset.erase_idem, Finset.erase_eq_of_not_mem, ?_⟩
  simp only [cleanup_devices, Finset.mem_filter, deviceIdOf, not_and]
  intro _
  simpa using h

/-- Witness for C8 at a concrete registry. -/
theorem remove_device_exactly_once_witness :
    deviceIdOf 7 ∉ remove_device {⟨7, none⟩} 7
      ∧ remove_device (remove_device {⟨7, none⟩} 7) 7 = remove_device {⟨7, none⟩} 7
      ∧ (deviceIdOf 7 ∉ ({⟨7, none⟩} : Finset DeviceId) → remove_device {⟨7, none⟩} 7 = {⟨7, none⟩})
      ∧ deviceIdOf 7 ∉ cleanup_devices [1, 2] {⟨7, none⟩} :=
  remove_device_exactly_once {⟨7, none⟩} 7 [1, 2] (by decide)

/-- C4: an update notification with `"pressed"` among the changed
attributes fires exactly one bus event — `vantage_button_pressed` when the
button reports pressed, `vantage_button_released` otherwise — whose payload
carries the button's id and name, the position placeholder, and the parent
station's id and name exactly when the station resolves; a notification
without `"pressed"` fires no event. -/
theorem button_update_callback_events (stations : List (ℕ × String)) (obj : Button)
    (attrs_changed : List String) :
    (("pressed" ∈ attrs_changed ∧ obj.pressed = true) →
        button_update_callback stations obj attrs_changed
          = [BusEvent.button_pressed
              ⟨obj.id, obj.name, "TODO", stations_get stations obj.parent_id⟩])
      ∧ (("pressed" ∈ attrs_changed ∧ obj.pressed = false) →
          button_update_callback stations obj attrs_changed
            = [BusEvent.button_released
                ⟨obj.id, obj.name, "TODO", stations_get stations obj.parent_id⟩])
      ∧ ("pressed" ∉ attrs_changed →
          button_update_callback stations obj attrs_changed = []) := by
  refine ⟨?_, ?_, ?_⟩
  · rintro ⟨hmem, hp⟩
    simp [button_update_callback, hmem, hp]
  · rintro ⟨hmem, hp⟩
    simp [button_update_callback, hmem, hp]
  · intro hmem
    simp [button_update_callback, hmem]

/-- Witness for C4 at a concrete button, station list and notification. -/
theorem button_update_callback_events_witness :
    button_update_callback [(5, "Keypad")] ⟨3, "Btn", 5, true⟩ ["pressed"]
      = [BusEvent.button_pressed ⟨3, "Btn", "TODO", stations_get [(5, "Keypad")] 5⟩] :=
  (button_update_callback_events [(5, "Keypad")] ⟨3, "Btn", 5, true⟩ ["pressed"]).1
    ⟨by decide, rfl⟩

/-- C5: an RGB-capable light with an unrecognized color-space tag is
initialized to the brightness-only capability set with a logged warning
(initialization is total, never a raised failure), and a numeric variable
with an unrecognized tag type logs a warning and leaves the default
presentation attributes untouched. -/
theorem unknown_variant_fallback (tag : String) (min_temp max_temp : ℤ)
    (tag_type : String)
    (h : tag_type ∉ ["DeviceUnits", "Level", "Load", "Task", "Number", "Delay",
        "Seconds", "DegC", "Decimal"]) :
    VantageRGBLight.post_init (.unknown tag) min_temp max_temp
        = ⟨[.BRIGHTNESS], .BRIGHTNESS, true, none, none, true⟩
      ∧ VantageNumberVariable.post_init tag_type
        = ⟨none, none, none, none, none, true⟩ := by
  refine ⟨rfl, ?_⟩
  unfold VantageNumberVariable.post_init
  split <;> simp_all

/-- Witness for C5 at a concrete unrecognized tag. -/
theorem unknown_variant_fallback_witness :
    VantageRGBLight.post_init (.unknown "Foo") 0 0
        = ⟨[.BRIGHTNESS], .BRIGHTNESS, true, none, none, true⟩
      ∧ VantageNumberVariable.post_init "Foo"
        = ⟨none, none, none, none, none, true⟩ :=
  unknown_variant_fallback "Foo" 0 0 "Foo" (by decide)

/-- C6: setup remaps authentication failures (`LoginRequiredError`,
`LoginFailedError`) to `ConfigEntryAuthFailed`, connectivity failures
(`ClientConnectionError`) to `ConfigEntryNotReady`, and remaps no other
exception type. -/
theorem setup_entry_error_remap :
    async_setup_entry (.error .loginRequiredError) = .configEntryAuthFailed
      ∧ async_setup_entry (.error .loginFailedError) = .configEntryAuthFailed
      ∧ async_setup_entry (.error .clientConnectionError) = .configEntryNotReady
      ∧ (∀ s, async_setup_entry (.error (.otherError s)) = .propagated (.otherError s))
      ∧ async_setup_entry (.ok ()) = .ok :=
  ⟨rfl, rfl, rfl, fun _ => rfl, rfl⟩

/-- C7: for every non-master object, the device record's via-device link
points to the explicit parent exactly when the object has a parent
reference whose id exists in the client and is not a BackBox; otherwise it
points to the object's master. -/
theorem via_device_linkage (client : VantageClient) (obj : SystemObject)
    (h : obj.is_master = false) :
    (vantage_device_info client obj).via_device
      = some (match obj.parent with
          | some pid =>
            if pid ∈ client.all_ids ∧ pid ∉ client.back_box_ids then toString pid
            else toString obj.master
          | none => toString obj.master) := by
  simp only [vantage_device_info, device_via_device, h, Bool.false_eq_true, if_false]
  cases obj.parent with
  | none => rfl
  | some pid => rw [apply_ite some]

/-- Witness for C7 at a concrete client and child object. -/
theorem via_device_linkage_witness :
    (vantage_device_info ⟨[], [], [10]⟩
        ⟨3, "Obj", "Load", false, false, false, 0, none, some 10, 1⟩).via_device
      = some (match some 10 with
          | some pid =>
            if pid ∈ [10] ∧ pid ∉ ([] : List ℕ) then toString pid
            else toString (1 : ℕ)
          | none => toString (1 : ℕ)) :=
  via_device_linkage ⟨[], [], [10]⟩
    ⟨3, "Obj", "Load", false, false, false, 0, none, some 10, 1⟩ rfl
